import Mathlib

/-
Verification of the pico-ngrok (piko) server specification against the
repository's source.

The repository under inspection provides `server/config/config.go` (the full
configuration surface: rebalancing, cluster join, proxy/upstream/admin
listeners, defaults and validation) and `pkg/middleware/logger.go` (the HTTP
access-logging middleware).  The Rebalancer, Connection Registry, Cluster
Directory and Join Coordinator described by the specification have no
implementation in the supplied source; those components are modelled here
directly from the specification's words, and each such definition is marked
`Modelled from the spec:`.

Go `float64` fields are embedded as `ℚ`, `time.Duration` as `Int`
(nanoseconds), and Go errors as `Option String` (`some msg` is an error,
`none` is success).  Validation logic of external packages that is not part
of the supplied source (gossip, TLS, access-log, log, auth) is abstracted as
oracle functions passed to the validators, so every theorem holds for every
possible behaviour of those externals.
-/

namespace Piko

/-! ## Configuration data model, translated from server/config/config.go -/

/-- External type `auth.Config`; its fields are not part of the supplied
source, so it is opaque.  Its `Enabled()` method is abstracted as an oracle
`AuthConfig → Bool` where needed. -/
structure AuthConfig where
  deriving DecidableEq

/-- External type `TLSConfig`; opaque, with `Validate` abstracted as an
oracle. -/
structure TLSConfig where
  deriving DecidableEq

/-- External type `log.AccessLogConfig`; only the fields set by `Default` are
modelled, `Validate` is abstracted as an oracle. -/
structure AccessLogConfig where
  Level : String
  Disable : Bool
  deriving DecidableEq

/-- External type `log.Config`; only the field set by `Default` is modelled,
`Validate` is abstracted as an oracle. -/
structure LogConfig where
  Level : String
  deriving DecidableEq

/-- External type `gossip.Config`; only the fields set by `Default` are
modelled, `Validate` is abstracted as an oracle. -/
structure GossipConfig where
  BindAddr : String
  Interval : Int
  MaxPacketSize : Int
  deriving DecidableEq

/-- Translated from `RebalanceConfig` in server/config/config.go. -/
structure RebalanceConfig where
  Threshold : ℚ
  ShedRate : ℚ
  MinConns : Nat
  deriving DecidableEq

/-- Translated from `RebalanceConfig.Validate`. -/
def RebalanceConfig.Validate (c : RebalanceConfig) : Option String :=
  if c.Threshold < 0 then some ("threshold cannot be negative")
  else if c.ShedRate < 0 then some ("shed-rate cannot be negative")
  else if c.ShedRate > 1 then some ("shed-rate cannot exceed 1")
  else none

/-- Translated from `HTTPConfig` in server/config/config.go. -/
structure HTTPConfig where
  ReadTimeout : Int
  ReadHeaderTimeout : Int
  WriteTimeout : Int
  IdleTimeout : Int
  MaxHeaderBytes : Int
  deriving DecidableEq

/-- Translated from `TenantConfig` in server/config/config.go. -/
structure TenantConfig where
  ID : String
  Auth : AuthConfig
  deriving DecidableEq

/-- Translated from `TenantConfig.Validate`; `enabled` is the oracle for the
external `auth.Config.Enabled()` method. -/
def TenantConfig.Validate (enabled : AuthConfig → Bool) (c : TenantConfig) :
    Option String :=
  if c.ID = "" then some ("missing tenant id")
  else if !(enabled c.Auth) then some ("tenant auth disabled")
  else none

/-- Translated from `ProxyConfig` in server/config/config.go. -/
structure ProxyConfig where
  BindAddr : String
  AdvertiseAddr : String
  Timeout : Int
  AccessLog : AccessLogConfig
  Auth : AuthConfig
  HTTP : HTTPConfig
  TLS : TLSConfig
  deriving DecidableEq

/-- Translated from `ProxyConfig.Validate`; `tlsV` and `alV` are the oracles
for the external TLS and access-log validators. -/
def ProxyConfig.Validate (tlsV : TLSConfig → Option String)
    (alV : AccessLogConfig → Option String) (c : ProxyConfig) : Option String :=
  if c.BindAddr = "" then some ("missing bind addr")
  else
    match tlsV c.TLS with
    | some e => some (("tls: ") ++ e)
    | none =>
      match alV c.AccessLog with
      | some e => some (("access log: ") ++ e)
      | none => none

/-- Translated from `UpstreamConfig` in server/config/config.go. -/
structure UpstreamConfig where
  BindAddr : String
  AdvertiseAddr : String
  Auth : AuthConfig
  Rebalance : RebalanceConfig
  TLS : TLSConfig
  Tenants : List TenantConfig
  deriving DecidableEq

/-- The tenant loop inside `UpstreamConfig.Validate`: returns the first
tenant validation error, if any. -/
def validateTenants (enabled : AuthConfig → Bool) :
    List TenantConfig → Option String
  | [] => none
  | t :: rest =>
    match TenantConfig.Validate enabled t with
    | some e => some (("tenant: ") ++ e)
    | none => validateTenants enabled rest

/-- Translated from `UpstreamConfig.Validate`. -/
def UpstreamConfig.Validate (tlsV : TLSConfig → Option String)
    (enabled : AuthConfig → Bool) (c : UpstreamConfig) : Option String :=
  if c.BindAddr = "" then some ("missing bind addr")
  else
    match RebalanceConfig.Validate c.Rebalance with
    | some e => some (("rebalance: ") ++ e)
    | none =>
      match tlsV c.TLS with
      | some e => some (("tls: ") ++ e)
      | none => validateTenants enabled c.Tenants

/-- Translated from `AdminConfig` in server/config/config.go. -/
structure AdminConfig where
  BindAddr : String
  AdvertiseAddr : String
  Auth : AuthConfig
  TLS : TLSConfig
  deriving DecidableEq

/-- Translated from `AdminConfig.Validate`. -/
def AdminConfig.Validate (tlsV : TLSConfig → Option String) (c : AdminConfig) :
    Option String :=
  if c.BindAddr = "" then some ("missing bind addr")
  else
    match tlsV c.TLS with
    | some e => some (("tls: ") ++ e)
    | none => none

/-- Translated from `ClusterConfig` in server/config/config.go. -/
structure ClusterConfig where
  NodeID : String
  NodeIDPrefix : String
  Join : List String
  JoinTimeout : Int
  AbortIfJoinFails : Bool
  Gossip : GossipConfig
  deriving DecidableEq

/-- Translated from `ClusterConfig.Validate`; `gossipV` is the oracle for the
external gossip validator. -/
def ClusterConfig.Validate (gossipV : GossipConfig → Option String)
    (c : ClusterConfig) : Option String :=
  if c.NodeID = "" then some ("missing node id")
  else if c.JoinTimeout = 0 then some ("missing join timeout")
  else
    match gossipV c.Gossip with
    | some e => some (("gossip: ") ++ e)
    | none => none

/-- Translated from `UsageConfig` in server/config/config.go. -/
structure UsageConfig where
  Disable : Bool
  deriving DecidableEq

/-- Translated from `Config` in server/config/config.go. -/
structure Config where
  Proxy : ProxyConfig
  Upstream : UpstreamConfig
  Admin : AdminConfig
  Cluster : ClusterConfig
  Usage : UsageConfig
  Log : LogConfig
  GracePeriod : Int
  deriving DecidableEq

/-- Translated from `Config.Validate`; the oracle arguments stand for the
validators of external packages not present in the supplied source. -/
def Config.Validate (gossipV : GossipConfig → Option String)
    (tlsV : TLSConfig → Option String) (alV : AccessLogConfig → Option String)
    (logV : LogConfig → Option String) (enabled : AuthConfig → Bool)
    (c : Config) : Option String :=
  match ClusterConfig.Validate gossipV c.Cluster with
  | some e => some (("cluster: ") ++ e)
  | none =>
    match ProxyConfig.Validate tlsV alV c.Proxy with
    | some e => some (("proxy: ") ++ e)
    | none =>
      match UpstreamConfig.Validate tlsV enabled c.Upstream with
      | some e => some (("upstream: ") ++ e)
      | none =>
        match AdminConfig.Validate tlsV c.Admin with
        | some e => some (("admin: ") ++ e)
        | none =>
          match logV c.Log with
          | some e => some (("log: ") ++ e)
          | none =>
            if c.GracePeriod = 0 then some ("missing grace period")
            else none

/-- One second expressed in `time.Duration` nanoseconds. -/
def second : Int := 1000000000

/-- Translated from `Default` in server/config/config.go. -/
def Default : Config :=
  { Proxy :=
      { BindAddr := ":8000"
        AdvertiseAddr := ""
        Timeout := 30 * second
        AccessLog := { Level := "info", Disable := false }
        Auth := {}
        HTTP :=
          { ReadTimeout := 10 * second
            ReadHeaderTimeout := 10 * second
            WriteTimeout := 10 * second
            IdleTimeout := 5 * 60 * second
            MaxHeaderBytes := 1048576 }
        TLS := {} }
    Upstream :=
      { BindAddr := ":8001"
        AdvertiseAddr := ""
        Auth := {}
        Rebalance := { Threshold := 0, ShedRate := 1/200, MinConns := 50 }
        TLS := {}
        Tenants := [] }
    Admin :=
      { BindAddr := ":8002"
        AdvertiseAddr := ""
        Auth := {}
        TLS := {} }
    Cluster :=
      { NodeID := ""
        NodeIDPrefix := ""
        Join := []
        JoinTimeout := 60 * second
        AbortIfJoinFails := true
        Gossip :=
          { BindAddr := ":8003"
            Interval := 100000000
            MaxPacketSize := 1400 } }
    Usage := { Disable := false }
    Log := { Level := "info" }
    GracePeriod := 60 * second }

/-! ## Cluster Directory, modelled from the spec (no implementation in the
supplied source) -/

/-- Modelled from the spec: `PeerState` — per known node, its identifier,
advertised address, last-reported local connection count, and the timestamp
of the last update.  Time is embedded as `ℚ` with one second as unit 1. -/
structure PeerState where
  nodeID : String
  advertiseAddr : String
  localConnectionCount : Nat
  lastUpdated : ℚ
  deriving DecidableEq

/-- Modelled from the spec: the staleness bound `max(3×gossip interval, 1s)`
used by `Average`. -/
def staleness (gossipInterval : ℚ) : ℚ := max (3 * gossipInterval) 1

/-- Modelled from the spec: the peer entries that are fresh at time `now`,
i.e. not older than the staleness bound; only these feed `Average`. -/
def freshPeers (dir : List PeerState) (now gossipInterval : ℚ) :
    List PeerState :=
  dir.filter (fun p => decide (now - p.lastUpdated ≤ staleness gossipInterval))

/-- Modelled from the spec: a full directory listing retains every entry,
stale ones included (they are excluded only from the average). -/
def directoryListing (dir : List PeerState) : List PeerState := dir

/-- Modelled from the spec: `Average() -> (avg, nodeCount, freshNodeCount)`,
computed over the fresh entries only; when there is no fresh entry the
average is undefined and reported as 0 (callers must skip on
`freshNodeCount == 0`). -/
def Average (dir : List PeerState) (now gossipInterval : ℚ) :
    ℚ × Nat × Nat :=
  let fresh := freshPeers dir now gossipInterval
  (if fresh.length = 0 then 0
   else (fresh.map (fun p => (p.localConnectionCount : ℚ))).sum / fresh.length,
   dir.length, fresh.length)

/-! ## Rebalancer tick, modelled from the spec (no implementation in the
supplied source) -/

/-- Modelled from the spec: the number of connections a Rebalancer tick
decides to shed.  Follows §4.3 step by step: a non-positive threshold means
the machine is `Disabled`; fewer than two fresh nodes, or a local count below
`minConns`, or a non-positive overshoot, skip the tick; otherwise the shed
count is `min(overshoot, ceil(avg*shedRate))` rounded down to a non-negative
integer. -/
def tickShed (threshold shedRate : ℚ) (minConns : Nat) (dir : List PeerState)
    (now gossipInterval : ℚ) (localCount : Nat) : Nat :=
  if threshold ≤ 0 then 0
  else
    let a := Average dir now gossipInterval
    if a.2.2 < 2 then 0
    else if localCount < minConns then 0
    else
      let overshoot : ℚ := (localCount : ℚ) - a.1 * (1 + threshold)
      if overshoot ≤ 0 then 0
      else (⌊min overshoot ((⌈a.1 * shedRate⌉ : Int) : ℚ)⌋).toNat

/-! ## Join Coordinator, modelled from the spec (no implementation in the
supplied source) -/

/-- Modelled from the spec: the Join Coordinator state machine
`Bootstrapping → Joining → Joined | Aborted`. -/
inductive JoinState where
  | Bootstrapping
  | Joining
  | Joined
  | Aborted
  deriving DecidableEq

/-- Modelled from the spec: the terminal state of the join protocol.  An
empty target list becomes `Joined` immediately; a successful contact before
the timeout becomes `Joined`; on timeout with no successful contact, the node
becomes `Aborted` exactly when more than one distinct target was configured
and `abortIfJoinFails` is set, and otherwise `Joined` as a solo/bootstrap
node.  `contacted` records whether any target responded before the
deadline. -/
def joinOutcome (targets : List String) (abortIfJoinFails : Bool)
    (contacted : Bool) : JoinState :=
  if targets = [] then JoinState.Joined
  else if contacted then JoinState.Joined
  else if 1 < targets.dedup.length ∧ abortIfJoinFails = true then
    JoinState.Aborted
  else JoinState.Joined

/-! ## Connection Registry, modelled from the spec (no implementation in the
supplied source) -/

/-- Connection handles are embedded as natural numbers. -/
abbrev Handle := Nat

/-- Modelled from the spec: the Connection Registry — per-tenant sets of live
upstream connection handles (a set is embedded as a list) plus the total
counter. -/
structure Registry where
  tenants : List (String × List Handle)
  total : Nat
  deriving DecidableEq

/-- Association-map lookup of a tenant's handle set (first matching
entry). -/
def lookupTenant (t : String) : List (String × List Handle) →
    Option (List Handle)
  | [] => none
  | p :: rest => if p.1 = t then some p.2 else lookupTenant t rest

/-- The handles currently registered for tenant `t`. -/
def Registry.handlesOf (r : Registry) (t : String) : List Handle :=
  (lookupTenant t r.tenants).getD []

/-- A handle is registered for tenant `t` when it is in that tenant's set. -/
def Registry.registeredFor (r : Registry) (t : String) (c : Handle) : Prop :=
  c ∈ r.handlesOf t

instance (r : Registry) (t : String) (c : Handle) :
    Decidable (r.registeredFor t c) := by
  unfold Registry.registeredFor
  infer_instance

/-- Replace tenant `t`'s handle set by `hs` wherever it appears. -/
def setTenant (ts : List (String × List Handle)) (t : String)
    (hs : List Handle) : List (String × List Handle) :=
  ts.map (fun p => if p.1 = t then (p.1, hs) else p)

/-- Modelled from the spec: `Unregister(tenantID, connection)` — idempotent
removal from the tenant's set, decrementing the total counter; a no-op if the
handle is already absent. -/
def Unregister (r : Registry) (t : String) (c : Handle) : Registry :=
  match lookupTenant t r.tenants with
  | none => r
  | some hs =>
    if c ∈ hs then
      { tenants := setTenant r.tenants t (hs.filter (fun h => h ≠ c)),
        total := r.total - 1 }
    else r

/-- A handle is registered somewhere in a tenant list. -/
def registeredIn (ts : List (String × List Handle)) (c : Handle) : Prop :=
  ∃ p ∈ ts, c ∈ p.2

instance (ts : List (String × List Handle)) (c : Handle) :
    Decidable (registeredIn ts c) := by
  unfold registeredIn
  infer_instance

/-! ## Victim selection, modelled from the spec (no implementation in the
supplied source) -/

/-- The per-tenant connection counts of a tenant list. -/
def tenantSizes (ts : List (String × List Handle)) : List Nat :=
  ts.map (fun p => p.2.length)

/-- Modelled from the spec: the proportional part of victim allocation — a
tenant holding `s` of the `total` connections contributes `n*s/total`
victims, rounded down (0 when the registry is empty). -/
def baseQuota (sizes : List Nat) (n : Nat) : List Nat :=
  sizes.map (fun s => n * s / sizes.sum)

/-- Tenant indices ordered by size, largest first (stable, so ties keep
registry order); used to hand out the rounding remainder. -/
def rankedIndices (sizes : List Nat) : List Nat :=
  List.insertionSort (fun i j => sizes.getD j 0 ≤ sizes.getD i 0)
    (List.range sizes.length)

/-- Modelled from the spec: per-tenant victim quotas — the proportional base
quota plus one extra for each of the largest tenants until the rounding
remainder is exhausted. -/
def quotas (sizes : List Nat) (n : Nat) : List Nat :=
  let base := baseQuota sizes n
  let bonus := (rankedIndices sizes).take (n - base.sum)
  (List.range sizes.length).map
    (fun i => base.getD i 0 + if i ∈ bonus then 1 else 0)

/-- Modelled from the spec: `SelectVictims(n)` — victims drawn proportionally
across tenants (remainder to the largest tenants first), then taken from each
tenant's set; the within-tenant randomisation is embedded as taking a prefix
of the tenant's set, which is one admissible sample without replacement. -/
def SelectVictims (r : Registry) (n : Nat) : List Handle :=
  ((r.tenants.zip (quotas (tenantSizes r.tenants) n)).map
    (fun p => p.1.2.take p.2)).flatten

/-! ## Access-log middleware, translated from pkg/middleware/logger.go -/

/-- The levels at which the middleware returned by `NewLogger` can log a
request. -/
inductive LogLevel where
  | warn
  | info
  | debug
  deriving DecidableEq

/-- Go's `strings.HasPrefix`, embedded structurally on character lists. -/
def hasPrefixChars : List Char → List Char → Bool
  | _, [] => true
  | [], _ :: _ => false
  | c :: s, p :: ps => c == p && hasPrefixChars s ps

/-- Translated from `NewLogger` in pkg/middleware/logger.go: the logging
decision made after the handler runs, as a function of the request URL path
and the response status.  `none` means the request is not logged (internal
endpoints).  `http.StatusInternalServerError` is 500. -/
def NewLogger (accessLog : Bool) (path : String) (status : Nat) :
    Option LogLevel :=
  if hasPrefixChars path.toList (("/_piko").toList) then none
  else if 500 ≤ status then some LogLevel.warn
  else if accessLog then some LogLevel.info
  else some LogLevel.debug

/-! ## Theorems -/

/-- C4: `RebalanceConfig.Validate` returns an error if and only if the
threshold is negative, the shed rate is negative, or the shed rate exceeds 1;
every configuration with a non-negative threshold and a shed rate in [0,1]
passes, and no upper bound is enforced on the threshold. -/
theorem rebalance_validate_iff (c : RebalanceConfig) :
    (RebalanceConfig.Validate c).isSome = true ↔
      (c.Threshold < 0 ∨ c.ShedRate < 0 ∨ 1 < c.ShedRate) := by
  unfold RebalanceConfig.Validate
  split_ifs with h1 h2 h3
  · simp only [Option.isSome_some, true_iff]
    exact Or.inl h1
  · simp only [Option.isSome_some, true_iff]
    exact Or.inr (Or.inl h2)
  · simp only [Option.isSome_some, true_iff]
    exact Or.inr (Or.inr h3)
  · simp only [Option.isSome_none, Bool.false_eq_true, false_iff]
    push_neg
    exact ⟨le_of_not_lt h1, le_of_not_lt h2, le_of_not_lt h3⟩

/-- C10: the middleware returned by `NewLogger` logs nothing for request
paths starting with "/_piko"; otherwise it logs at Warn level exactly when
the response status is at least 500 (regardless of the access-log flag), at
Info level for a status below 500 with the access-log flag set, and at Debug
level for a status below 500 with the flag unset. -/
theorem newLogger_levels (accessLog : Bool) (path : String) (status : Nat) :
    (hasPrefixChars path.toList (("/_piko").toList) = true →
      NewLogger accessLog path status = none) ∧
    (hasPrefixChars path.toList (("/_piko").toList) = false →
      ((NewLogger accessLog path status = some LogLevel.warn ↔ 500 ≤ status) ∧
        (status < 500 →
          NewLogger accessLog path status =
            some (if accessLog then LogLevel.info else LogLevel.debug)))) := by
  unfold NewLogger
  constructor
  · intro h
    simp at h
    simp [h]
  · intro h
    simp at h
    refine ⟨?_, fun hs => ?_⟩
    · cases accessLog <;> by_cases h5 : 500 ≤ status <;> simp [h, h5]
    · cases accessLog <;> simp [h, Nat.not_le.mpr hs]

/-- C10 witness: a 500-status request on a non-internal path is logged at
Warn level. -/
theorem newLogger_levels_witness :
    (hasPrefixChars (("/health").toList) (("/_piko").toList) = false) ∧
      NewLogger true ("/health") 500 = some LogLevel.warn :=
  ⟨by decide, ((newLogger_levels true ("/health") 500).2 (by decide)).1.mpr
    (by decide)⟩

/-- C2: with a configured threshold of 0 the Rebalancer never sheds (the
tick's shed count is 0 for every directory, time and local count), and the
default configuration sets the rebalance threshold to 0, so rebalancing is
disabled by default. -/
theorem threshold_zero_disables :
    (∀ (r : ℚ) (mc : Nat) (dir : List PeerState) (now gi : ℚ) (lc : Nat),
        tickShed 0 r mc dir now gi lc = 0) ∧
      Default.Upstream.Rebalance.Threshold = 0 := by
  refine ⟨fun r mc dir now gi lc => ?_, rfl⟩
  unfold tickShed
  simp

/-- C3: when the join timeout elapses with no successful contact, the node
ends `Aborted` exactly when more than one distinct join target was configured
and `abortIfJoinFails` is set; in every other case — in particular with a
single configured target — it ends `Joined` as a solo/bootstrap node. -/
theorem joinOutcome_abort_iff (targets : List String) (abortFlag : Bool) :
    (joinOutcome targets abortFlag false = JoinState.Aborted ↔
      (1 < targets.dedup.length ∧ abortFlag = true)) ∧
    (joinOutcome targets abortFlag false = JoinState.Joined ↔
      ¬(1 < targets.dedup.length ∧ abortFlag = true)) := by
  unfold joinOutcome
  split_ifs with h1 h2 h3 <;> simp_all

/-- C1: a Rebalancer tick that reaches the shed computation (positive
threshold, at least two fresh nodes, local count at least `minConns`,
positive overshoot) sheds exactly `min(local - avg*(1+threshold),
ceil(avg*shedRate))` rounded down to a non-negative integer. -/
theorem tickShed_formula (t r : ℚ) (mc : Nat) (dir : List PeerState)
    (now gi : ℚ) (lc : Nat) (ht : 0 < t)
    (hf : 2 ≤ (Average dir now gi).2.2) (hm : mc ≤ lc)
    (ho : 0 < (lc : ℚ) - (Average dir now gi).1 * (1 + t)) :
    tickShed t r mc dir now gi lc =
      (⌊min ((lc : ℚ) - (Average dir now gi).1 * (1 + t))
          ((⌈(Average dir now gi).1 * r⌉ : Int) : ℚ)⌋).toNat := by
  unfold tickShed
  rw [if_neg (by linarith), if_neg (by omega), if_neg (by omega),
    if_neg (by linarith)]

/-- C1 witness: with two fresh peers reporting 100 connections each (cluster
average 100), threshold 0.2, shed rate 0.1, minConns 50 and a local count of
150, the tick sheds exactly 10 connections. -/
theorem tickShed_formula_witness :
    tickShed (1/5) (1/10) 50 [⟨"a", "", 100, 10⟩, ⟨"b", "", 100, 10⟩]
      10 1 150 = 10 := by
  rw [tickShed_formula (1/5) (1/10) 50 [⟨"a", "", 100, 10⟩, ⟨"b", "", 100, 10⟩]
    10 1 150 (by norm_num)
    (by simp [Average, freshPeers, staleness])
    (by norm_num)
    (by simp [Average, freshPeers, staleness]; norm_num)]
  simp [Average, freshPeers, staleness]
  norm_num
  decide

/-- C6: every peer entry older than the staleness bound `max(3×gossip
interval, 1s)` is excluded from the fresh set that feeds `Average` yet
remains present in a full directory listing, and — for every snapshot,
stale entries or not — a tick whose fresh-node count is below 2 (including
the no-fresh-data case) sheds nothing. -/
theorem average_staleness_and_skip (dir : List PeerState) (now gi : ℚ) :
    (∀ p ∈ dir, staleness gi < now - p.lastUpdated →
      p ∉ freshPeers dir now gi ∧ p ∈ directoryListing dir) ∧
      (∀ (t r : ℚ) (mc lc : Nat), (Average dir now gi).2.2 < 2 →
        tickShed t r mc dir now gi lc = 0) := by
  constructor
  · intro p hp hold
    refine ⟨fun hmem => ?_, hp⟩
    rw [freshPeers, List.mem_filter] at hmem
    exact absurd (of_decide_eq_true hmem.2) (not_le.mpr hold)
  · intro t r mc lc hf
    unfold tickShed
    by_cases ht : t ≤ 0
    · rw [if_pos ht]
    · rw [if_neg ht, if_pos hf]

/-- C6 witness: a peer last updated 10 seconds ago under a 1-second gossip
interval is stale and excluded from the fresh set, and on the empty snapshot
(zero fresh nodes) a tick sheds nothing. -/
theorem average_staleness_and_skip_witness :
    (⟨"a", "", 5, 0⟩ : PeerState) ∉ freshPeers [⟨"a", "", 5, 0⟩] 10 1 ∧
      tickShed 1 1 0 ([] : List PeerState) 10 1 99 = 0 :=
  ⟨((average_staleness_and_skip [⟨"a", "", 5, 0⟩] 10 1).1 ⟨"a", "", 5, 0⟩
      (by simp) (by norm_num [staleness])).1,
    (average_staleness_and_skip [] 10 1).2 1 1 0 99
      (by simp [Average, freshPeers])⟩

/-- Looking a tenant up after replacing that tenant's handle set finds the
replacement, provided the tenant was present. -/
theorem lookup_setTenant (ts : List (String × List Handle)) (t : String)
    (v hs : List Handle) (h : lookupTenant t ts = some hs) :
    lookupTenant t (setTenant ts t v) = some v := by
  induction ts with
  | nil => simp [lookupTenant] at h
  | cons q rest ih =>
    by_cases hq : q.1 = t
    · simp [setTenant, lookupTenant, hq]
    · simp only [setTenant, List.map_cons, lookupTenant, hq, if_false,
        if_neg hq] at h ⊢
      exact ih h

/-- C7: `Unregister` is idempotent — applying it twice to the same tenant and
handle leaves the registry (per-tenant sets and total counter) exactly as
applying it once — and unregistering a handle that is not registered for the
tenant is a no-op. -/
theorem unregister_idempotent (reg : Registry) (t : String) (c : Handle) :
    Unregister (Unregister reg t c) t c = Unregister reg t c ∧
      (¬ reg.registeredFor t c → Unregister reg t c = reg) := by
  constructor
  · cases hl : lookupTenant t reg.tenants with
    | none =>
      have h1 : Unregister reg t c = reg := by
        unfold Unregister
        rw [hl]
      rw [h1, h1]
    | some hs =>
      by_cases hc : c ∈ hs
      · have h1 : Unregister reg t c =
            ⟨setTenant reg.tenants t (hs.filter (fun h => h ≠ c)),
              reg.total - 1⟩ := by
          unfold Unregister
          rw [hl]
          exact if_pos hc
        rw [h1]
        have hl2 : lookupTenant t
            (setTenant reg.tenants t (hs.filter (fun h => h ≠ c))) =
            some (hs.filter (fun h => h ≠ c)) :=
          lookup_setTenant reg.tenants t _ hs hl
        unfold Unregister
        rw [hl2]
        exact if_neg (by simp)
      · have h1 : Unregister reg t c = reg := by
          unfold Unregister
          rw [hl]
          exact if_neg hc
        rw [h1, h1]
  · intro hn
    cases hl : lookupTenant t reg.tenants with
    | none =>
      unfold Unregister
      rw [hl]
    | some hs =>
      unfold Unregister
      rw [hl]
      refine if_neg fun hc => ?_
      exact hn (by simp [Registry.registeredFor, Registry.handlesOf, hl, hc])

/-- C7 witness: on a registry holding handles 1 and 2 for tenant "a", handle
5 is absent, so unregistering it changes nothing. -/
theorem unregister_idempotent_witness :
    ¬ (Registry.mk [("a", [1, 2])] 2).registeredFor ("a") 5 ∧
      Unregister (Registry.mk [("a", [1, 2])] 2) ("a") 5 =
        Registry.mk [("a", [1, 2])] 2 :=
  ⟨by decide, (unregister_idempotent (Registry.mk [("a", [1, 2])] 2) ("a") 5).2
    (by decide)⟩

/-- A passing cluster validation implies the node ID and join timeout are
present. -/
theorem cluster_validate_none (gossipV : GossipConfig → Option String)
    (c : ClusterConfig) (h : ClusterConfig.Validate gossipV c = none) :
    c.NodeID ≠ "" ∧ c.JoinTimeout ≠ 0 := by
  unfold ClusterConfig.Validate at h
  split_ifs at h with h1 h2
  exact ⟨h1, h2⟩

/-- A passing proxy validation implies the bind address is present. -/
theorem proxy_validate_none (tlsV : TLSConfig → Option String)
    (alV : AccessLogConfig → Option String) (c : ProxyConfig)
    (h : ProxyConfig.Validate tlsV alV c = none) : c.BindAddr ≠ "" := by
  unfold ProxyConfig.Validate at h
  split_ifs at h with h1
  exact h1

/-- A passing upstream validation implies the bind address is present. -/
theorem upstream_validate_none (tlsV : TLSConfig → Option String)
    (enabled : AuthConfig → Bool) (c : UpstreamConfig)
    (h : UpstreamConfig.Validate tlsV enabled c = none) : c.BindAddr ≠ "" := by
  unfold UpstreamConfig.Validate at h
  split_ifs at h with h1
  exact h1

/-- A passing admin validation implies the bind address is present. -/
theorem admin_validate_none (tlsV : TLSConfig → Option String)
    (c : AdminConfig) (h : AdminConfig.Validate tlsV c = none) :
    c.BindAddr ≠ "" := by
  unfold AdminConfig.Validate at h
  split_ifs at h with h1
  exact h1

/-- C8: `Config.Validate` fails whenever a required field is missing — an
empty cluster node ID, a zero join timeout, an empty proxy, upstream or admin
bind address, or a zero grace period each make validation return an error,
for every behaviour of the external (gossip, TLS, access-log, log)
validators. -/
theorem config_validate_missing_fields (gossipV : GossipConfig → Option String)
    (tlsV : TLSConfig → Option String) (alV : AccessLogConfig → Option String)
    (logV : LogConfig → Option String) (enabled : AuthConfig → Bool)
    (c : Config)
    (h : c.Cluster.NodeID = "" ∨ c.Cluster.JoinTimeout = 0 ∨
      c.Proxy.BindAddr = "" ∨ c.Upstream.BindAddr = "" ∨
      c.Admin.BindAddr = "" ∨ c.GracePeriod = 0) :
    (Config.Validate gossipV tlsV alV logV enabled c).isSome = true := by
  by_contra hn
  have hv : Config.Validate gossipV tlsV alV logV enabled c = none := by
    cases hx : Config.Validate gossipV tlsV alV logV enabled c with
    | none => rfl
    | some e => exact absurd (by rw [hx]; rfl) hn
  unfold Config.Validate at hv
  cases h1 : ClusterConfig.Validate gossipV c.Cluster with
  | some e => rw [h1] at hv; exact Option.noConfusion hv
  | none =>
  rw [h1] at hv
  cases h2 : ProxyConfig.Validate tlsV alV c.Proxy with
  | some e => rw [h2] at hv; exact Option.noConfusion hv
  | none =>
  rw [h2] at hv
  cases h3 : UpstreamConfig.Validate tlsV enabled c.Upstream with
  | some e => rw [h3] at hv; exact Option.noConfusion hv
  | none =>
  rw [h3] at hv
  cases h4 : AdminConfig.Validate tlsV c.Admin with
  | some e => rw [h4] at hv; exact Option.noConfusion hv
  | none =>
  rw [h4] at hv
  cases h5 : logV c.Log with
  | some e => rw [h5] at hv; exact Option.noConfusion hv
  | none =>
  rw [h5] at hv
  have h6 : c.GracePeriod ≠ 0 := by
    intro h0
    rw [if_pos h0] at hv
    exact Option.noConfusion hv
  obtain ⟨ha, hb⟩ := cluster_validate_none gossipV c.Cluster h1
  have hc := proxy_validate_none tlsV alV c.Proxy h2
  have hd := upstream_validate_none tlsV enabled c.Upstream h3
  have he := admin_validate_none tlsV c.Admin h4
  rcases h with h | h | h | h | h | h
  · exact ha h
  · exact hb h
  · exact hc h
  · exact hd h
  · exact he h
  · exact h6 h

/-- C8 witness: the default configuration has an empty node ID (one is
generated at runtime before validation), so validating it as-is fails, for
the trivially-passing external validators. -/
theorem config_validate_missing_fields_witness :
    (Config.Validate (fun _ => none) (fun _ => none) (fun _ => none)
      (fun _ => none) (fun _ => true) Default).isSome = true :=
  config_validate_missing_fields (fun _ => none) (fun _ => none)
    (fun _ => none) (fun _ => none) (fun _ => true) Default (Or.inl rfl)

/-- The tenant loop of `UpstreamConfig.Validate` reports an error whenever
some listed tenant fails its own validation. -/
theorem validateTenants_some (enabled : AuthConfig → Bool)
    (l : List TenantConfig) (tc : TenantConfig) (hmem : tc ∈ l)
    (hbad : (TenantConfig.Validate enabled tc).isSome = true) :
    (validateTenants enabled l).isSome = true := by
  induction l with
  | nil => cases hmem
  | cons q rest ih =>
    unfold validateTenants
    cases hq : TenantConfig.Validate enabled q with
    | some e => rfl
    | none =>
      rcases List.mem_cons.mp hmem with h | h
      · subst h
        rw [hq] at hbad
        exact absurd hbad (by simp)
      · exact ih h

/-- C9: every configured tenant must have a non-empty ID and authentication
enabled — `TenantConfig.Validate` errors on an empty ID or disabled auth, and
`UpstreamConfig.Validate` rejects the whole configuration when any listed
tenant fails its validation. -/
theorem tenant_validation (enabled : AuthConfig → Bool)
    (tlsV : TLSConfig → Option String) (tc : TenantConfig)
    (uc : UpstreamConfig) :
    ((tc.ID = "" ∨ enabled tc.Auth = false) →
      (TenantConfig.Validate enabled tc).isSome = true) ∧
    ((∃ t ∈ uc.Tenants, (TenantConfig.Validate enabled t).isSome = true) →
      (UpstreamConfig.Validate tlsV enabled uc).isSome = true) := by
  constructor
  · intro h
    unfold TenantConfig.Validate
    rcases h with h | h
    · rw [if_pos h]
      rfl
    · split_ifs with h1 h2
      · rfl
      · rfl
      · rw [h] at h2
        exact absurd rfl h2
  · rintro ⟨t, hmem, hbad⟩
    unfold UpstreamConfig.Validate
    split_ifs with h1
    · rfl
    · cases hr : RebalanceConfig.Validate uc.Rebalance with
      | some e => rfl
      | none =>
        cases htl : tlsV uc.TLS with
        | some e => rfl
        | none => exact validateTenants_some enabled uc.Tenants t hmem hbad

/-- C9 witness: a tenant with auth disabled fails tenant validation, and an
upstream configuration listing it fails upstream validation. -/
theorem tenant_validation_witness :
    (TenantConfig.Validate (fun _ => false) ⟨"x", {}⟩).isSome = true ∧
      (UpstreamConfig.Validate (fun _ => none) (fun _ => false)
        ⟨":8001", "", {}, ⟨0, 0, 0⟩, {}, [⟨"x", {}⟩]⟩).isSome = true :=
  ⟨(tenant_validation (fun _ => false) (fun _ => none) ⟨"x", {}⟩
      ⟨":8001", "", {}, ⟨0, 0, 0⟩, {}, [⟨"x", {}⟩]⟩).1 (Or.inr rfl),
   (tenant_validation (fun _ => false) (fun _ => none) ⟨"x", {}⟩
      ⟨":8001", "", {}, ⟨0, 0, 0⟩, {}, [⟨"x", {}⟩]⟩).2
     ⟨⟨"x", {}⟩, by simp,
      (tenant_validation (fun _ => false) (fun _ => none) ⟨"x", {}⟩
        ⟨":8001", "", {}, ⟨0, 0, 0⟩, {}, [⟨"x", {}⟩]⟩).1 (Or.inr rfl)⟩⟩

/-- Summing floored divisions never exceeds the floored division of the
sum. -/
theorem sum_map_mul_div_le (n T : Nat) (l : List Nat) :
    (l.map (fun s => n * s / T)).sum ≤ n * l.sum / T := by
  induction l with
  | nil => simp
  | cons a tl ih =>
    simp only [List.map_cons, List.sum_cons]
    calc n * a / T + (tl.map (fun s => n * s / T)).sum
        ≤ n * a / T + n * tl.sum / T := Nat.add_le_add_left ih _
      _ ≤ (n * a + n * tl.sum) / T := Nat.add_div_le_add_div _ _ _
      _ = n * (a + tl.sum) / T := by rw [Nat.left_distrib]

/-- The proportional base quotas sum to at most the requested victim
count. -/
theorem baseQuota_sum_le (sizes : List Nat) (n : Nat) :
    (baseQuota sizes n).sum ≤ n := by
  unfold baseQuota
  refine (sum_map_mul_div_le n sizes.sum sizes).trans ?_
  by_cases hT : sizes.sum = 0
  · simp [hT]
  · rw [Nat.mul_div_cancel _ (Nat.pos_of_ne_zero hT)]

/-- A sum of 0/1 membership indicators is the length of the matching
filter. -/
theorem sum_map_ite_mem (l S : List Nat) :
    (l.map (fun i => if i ∈ S then 1 else 0)).sum =
      (l.filter (fun i => decide (i ∈ S))).length := by
  induction l with
  | nil => simp
  | cons a tl ih =>
    by_cases ha : a ∈ S <;> simp [List.filter_cons, ha, ih]
    omega

/-- Filtering a range on membership in a duplicate-free list yields at most
that list's length. -/
theorem filter_range_length_le (m : Nat) (S : List Nat) :
    ((List.range m).filter (fun i => decide (i ∈ S))).length ≤ S.length := by
  have hsub : (List.range m).filter (fun i => decide (i ∈ S)) ⊆ S := by
    intro x hx
    rw [List.mem_filter] at hx
    exact of_decide_eq_true hx.2
  have hnd : ((List.range m).filter (fun i => decide (i ∈ S))).Nodup :=
    (List.nodup_range m).filter _
  exact (List.subperm_of_subset hnd hsub).length_le

/-- Reading a list back positionally over its index range recovers its
sum. -/
theorem getD_range_sum (l : List Nat) :
    ((List.range l.length).map (fun i => l.getD i 0)).sum = l.sum := by
  induction l with
  | nil => simp
  | cons a tl ih =>
    rw [List.length_cons, List.range_succ_eq_map]
    simp only [List.map_cons, List.sum_cons, List.map_map, Function.comp_def,
      List.getD_cons_zero, List.getD_cons_succ]
    rw [ih]

/-- Pointwise sums of natural-valued maps split. -/
theorem sum_map_add_split (l : List Nat) (f g : Nat → Nat) :
    (l.map (fun i => f i + g i)).sum = (l.map f).sum + (l.map g).sum := by
  induction l with
  | nil => simp
  | cons a tl ih =>
    simp only [List.map_cons, List.sum_cons, ih]
    omega

/-- The final per-tenant quotas (base plus remainder bonus) sum to at most
the requested victim count. -/
theorem quotas_sum_le (sizes : List Nat) (n : Nat) :
    (quotas sizes n).sum ≤ n := by
  unfold quotas
  rw [sum_map_add_split]
  have hbase : ((List.range sizes.length).map
      (fun i => (baseQuota sizes n).getD i 0)).sum = (baseQuota sizes n).sum := by
    have hlen : sizes.length = (baseQuota sizes n).length := by
      unfold baseQuota
      rw [List.length_map]
    rw [hlen, getD_range_sum]
  have hbonus : ((List.range sizes.length).map
      (fun i => if i ∈ (rankedIndices sizes).take (n - (baseQuota sizes n).sum)
        then 1 else 0)).sum ≤ n - (baseQuota sizes n).sum := by
    rw [sum_map_ite_mem]
    refine (filter_range_length_le _ _).trans ?_
    rw [List.length_take]
    exact min_le_left _ _
  have hb := baseQuota_sum_le sizes n
  omega

/-- The lengths of per-tenant prefixes are bounded by the quota list's
sum. -/
theorem zip_take_length_le :
    ∀ (ts : List (String × List Handle)) (qs : List Nat),
      (((ts.zip qs).map (fun p => p.1.2.take p.2)).map List.length).sum ≤
        qs.sum
  | _, [] => by simp
  | [], _ :: _ => by simp
  | p :: ts, q :: qs => by
    simp only [List.zip_cons_cons, List.map_cons, List.sum_cons]
    have h1 : (p.2.take q).length ≤ q := by
      rw [List.length_take]
      exact min_le_left _ _
    have h2 := zip_take_length_le ts qs
    omega

/-- Every handle in the flattened per-tenant prefixes already appears in the
flattened tenant sets. -/
theorem flatten_take_subset :
    ∀ (ts : List (String × List Handle)) (qs : List Nat) (x : Handle),
      x ∈ ((ts.zip qs).map (fun p => p.1.2.take p.2)).flatten →
      x ∈ (ts.map (fun p => p.2)).flatten
  | _, [], x => by simp
  | [], _ :: _, x => by simp
  | p :: ts, q :: qs, x => by
    simp only [List.zip_cons_cons, List.map_cons, List.flatten_cons,
      List.mem_append]
    rintro (h | h)
    · exact Or.inl (List.take_subset _ _ h)
    · exact Or.inr (flatten_take_subset ts qs x h)

/-- Taking per-tenant prefixes preserves the no-duplicates property of the
registry's flattened tenant sets. -/
theorem flatten_take_nodup :
    ∀ (ts : List (String × List Handle)) (qs : List Nat),
      ((ts.map (fun p => p.2)).flatten).Nodup →
      (((ts.zip qs).map (fun p => p.1.2.take p.2)).flatten).Nodup
  | _, [], _ => by simp
  | [], _ :: _, _ => by simp
  | p :: ts, q :: qs, h => by
    simp only [List.map_cons, List.flatten_cons, List.nodup_append] at h
    obtain ⟨h1, h2, h3⟩ := h
    simp only [List.zip_cons_cons, List.map_cons, List.flatten_cons,
      List.nodup_append]
    refine ⟨(List.take_sublist _ _).nodup h1, flatten_take_nodup ts qs h2,
      fun x hx hx' => ?_⟩
    exact h3 (List.take_subset _ _ hx) (flatten_take_subset ts qs x hx')

/-- C5: for every registry whose tenant sets are globally duplicate-free,
`SelectVictims(n)` returns at most `n` handles, only handles currently
registered for some tenant, and no handle twice. -/
theorem selectVictims_spec (reg : Registry) (n : Nat)
    (hwf : ((reg.tenants.map (fun p => p.2)).flatten).Nodup) :
    (SelectVictims reg n).length ≤ n ∧
      (∀ x ∈ SelectVictims reg n, registeredIn reg.tenants x) ∧
      (SelectVictims reg n).Nodup := by
  refine ⟨?_, fun x hx => ?_, ?_⟩
  · have h1 : (SelectVictims reg n).length ≤
        (quotas (tenantSizes reg.tenants) n).sum := by
      unfold SelectVictims
      rw [List.length_flatten]
      exact zip_take_length_le _ _
    exact h1.trans (quotas_sum_le _ _)
  · unfold SelectVictims at hx
    rw [List.mem_flatten] at hx
    obtain ⟨l, hl, hxl⟩ := hx
    rw [List.mem_map] at hl
    obtain ⟨pq, hpq, rfl⟩ := hl
    obtain ⟨p, q⟩ := pq
    exact ⟨p, (List.of_mem_zip hpq).1, List.take_subset _ _ hxl⟩
  · unfold SelectVictims
    exact flatten_take_nodup _ _ hwf

/-- C5 witness: on a registry with tenant "a" holding handles 1, 2, 3 and
tenant "b" holding handle 4, selecting 2 victims returns at most 2 distinct
registered handles. -/
theorem selectVictims_spec_witness :
    ((((Registry.mk [("a", [1, 2, 3]), ("b", [4])] 4).tenants.map
        (fun p => p.2)).flatten).Nodup) ∧
      ((SelectVictims (Registry.mk [("a", [1, 2, 3]), ("b", [4])] 4)
          2).length ≤ 2 ∧
        (∀ x ∈ SelectVictims (Registry.mk [("a", [1, 2, 3]), ("b", [4])] 4) 2,
          registeredIn (Registry.mk [("a", [1, 2, 3]), ("b", [4])] 4).tenants
            x) ∧
        (SelectVictims (Registry.mk [("a", [1, 2, 3]), ("b", [4])] 4)
          2).Nodup) :=
  ⟨by decide,
    selectVictims_spec (Registry.mk [("a", [1, 2, 3]), ("b", [4])] 4) 2
      (by decide)⟩

end Piko
